import Mathlib

/-!
Verification of the raster tiling / mosaicking core of
NicolasMafla/big-raster-handler (src/raster.py), as a shallow embedding.

The embedded parts:
  * the window-enumeration loop of Raster.generate_tiles (lines 62-70),
    including the Python range semantics it relies on;
  * the tile-name format string of generate_tiles (line 84);
  * the affine-transform composition performed by rasterio's
    window_transform (line 72);
  * the control flow, resource handling and output-metadata computation of
    Raster.merge_tiles (lines 88-124), with the pixel-level overlap policy
    of rasterio.merge.merge's default method;
  * the Raster attributes captured at construction time (lines 11-27) that
    merge_tiles reads back.
-/

namespace RasterHandler

/-- A pixel-space window, as built by rasterio.windows.Window at
raster.py line 70: offsets and sizes of a rectangular sub-region. -/
structure Window where
  colOff : Nat
  rowOff : Nat
  width : Nat
  height : Nat
deriving DecidableEq, Repr

/-- Python exceptions that the embedded code can raise. -/
inductive PyError where
  /-- ValueError, raised e.g. by range(0, stop, 0). -/
  | valueError
deriving DecidableEq, Repr

/-- Python range(0, stop, step) for a positive step and stop at least 0:
the values step*k strictly below stop, in increasing order.  Its length is
the ceiling of stop/step. -/
def pyRangePos (stop step : Nat) : List Nat :=
  (List.range ((stop + step - 1) / step)).map (fun k => k * step)

/-- Python range(0, stop, step) for an arbitrary integer step and a
natural stop: a zero step raises ValueError; a negative step yields the
empty range (the start 0 is never greater than a nonnegative stop); a
positive step yields pyRangePos. -/
def pyRange (stop : Nat) (step : Int) : Except PyError (List Nat) :=
  if step = 0 then .error .valueError
  else if 0 < step then .ok (pyRangePos stop step.toNat)
  else .ok []

/-- The window-enumeration loop of generate_tiles (raster.py lines 63-70)
for a positive tile size: outer loop over column offsets
(cols = range(0, width, tile_size)), inner loop over row offsets
(rows = range(0, height, tile_size)); each window is clipped by
w = min(tile_size, width - i), h = min(tile_size, height - j). -/
def tileWindows (width height tsize : Nat) : List Window :=
  (pyRangePos width tsize).flatMap (fun i =>
    (pyRangePos height tsize).map (fun j =>
      { colOff := i, rowOff := j,
        width := min tsize (width - i), height := min tsize (height - j) }))

/-- The window enumeration of generate_tiles for an arbitrary integer
tile_size, reflecting the Python range calls of lines 63-64: tile_size = 0
raises ValueError before any window is produced; a negative tile_size
makes both ranges empty, so no window is produced and no error is raised;
a positive tile_size yields tileWindows.  (The Nat subtractions inside
tileWindows agree with Python because every enumerated offset is strictly
below the corresponding dimension.) -/
def generateTiles (width height : Nat) (tileSize : Int) : Except PyError (List Window) := do
  let cols ← pyRange width tileSize
  let rows ← pyRange height tileSize
  pure (cols.flatMap (fun i =>
    rows.map (fun j =>
      { colOff := i, rowOff := j,
        width := min tileSize.toNat (width - i),
        height := min tileSize.toNat (height - j) })))

/-- A window contains pixel (x, y) when (x, y) lies inside its
rectangle. -/
def Window.contains (w : Window) (x y : Nat) : Prop :=
  w.colOff ≤ x ∧ x < w.colOff + w.width ∧ w.rowOff ≤ y ∧ y < w.rowOff + w.height

instance (w : Window) (x y : Nat) : Decidable (w.contains x y) := by
  unfold Window.contains; infer_instance

/-- Strict enumeration order on windows: earlier column offset, or the
same column offset and earlier row offset. -/
def winLex (w₁ w₂ : Window) : Prop :=
  w₁.colOff < w₂.colOff ∨ (w₁.colOff = w₂.colOff ∧ w₁.rowOff < w₂.rowOff)

instance (w₁ w₂ : Window) : Decidable (winLex w₁ w₂) := by
  unfold winLex; infer_instance

/-- A 2-D affine transform with the six coefficients of an
affine.Affine as used by rasterio (raster.py line 25): pixel
(col, row) maps to world (a*col + b*row + c, d*col + e*row + f).
Coefficients are modelled as exact rationals. -/
structure Affine where
  a : ℚ
  b : ℚ
  c : ℚ
  d : ℚ
  e : ℚ
  f : ℚ
deriving DecidableEq, Repr

/-- Forward application: pixel (col, row) to world coordinates. -/
def Affine.apply (T : Affine) (col row : ℚ) : ℚ × ℚ :=
  (T.a * col + T.b * row + T.c, T.d * col + T.e * row + T.f)

/-- Composition of affine transforms (matrix product), as implemented by
the affine library's multiplication operator. -/
def Affine.mul (T S : Affine) : Affine :=
  { a := T.a * S.a + T.b * S.d,
    b := T.a * S.b + T.b * S.e,
    c := T.a * S.c + T.b * S.f + T.c,
    d := T.d * S.a + T.e * S.d,
    e := T.d * S.b + T.e * S.e,
    f := T.d * S.c + T.e * S.f + T.f }

/-- Pure pixel-space translation by (dx, dy). -/
def Affine.translation (dx dy : ℚ) : Affine :=
  { a := 1, b := 0, c := dx, d := 0, e := 1, f := dy }

/-- Modelled from the rasterio collaborator: src.window_transform(window)
(raster.py line 72) composes the dataset transform with the translation
to the window's offsets, i.e. transform * Affine.translation(col_off,
row_off). -/
def window_transform (T : Affine) (w : Window) : Affine :=
  T.mul (Affine.translation w.colOff w.rowOff)

/-- Left zero-padding of a decimal string to a given width, as Python's
format spec 05d does for nonnegative integers. -/
def zeroPad (padWidth : Nat) (s : String) : String :=
  String.mk (List.replicate (padWidth - s.length) '0') ++ s

/-- Python format of a natural number under the 05d format spec. -/
def fmt05 (n : Nat) : String := zeroPad 5 (Nat.repr n)

/-- The Raster._ext attribute set at construction (raster.py line 27). -/
def tifExt : String := ".tif"

/-- The tile file name built at raster.py line 84: the format string
interpolates the column offset i and row offset j with the 05d spec and
then appends a dot followed by the value of Raster._ext. -/
def tileName (i j : Nat) : String :=
  "tile_x" ++ fmt05 i ++ "_y" ++ fmt05 j ++ "." ++ tifExt

/-- A source raster as seen by the mosaicking step, after its placement
in the common output grid has been resolved: an integer footprint offset
(ox, oy), a size (w, h), and its pixel values addressed in its own local
coordinates.  All pixels inside the footprint are taken to be valid
(non-nodata) data. -/
structure SrcRaster where
  ox : Int
  oy : Int
  w : Int
  h : Int
  val : Int → Int → Int

/-- Whether output-grid pixel (x, y) falls inside the source's
footprint. -/
def SrcRaster.covers (s : SrcRaster) (x y : Int) : Bool :=
  decide (s.ox ≤ x) && decide (x < s.ox + s.w) &&
    decide (s.oy ≤ y) && decide (y < s.oy + s.h)

/-- Modelled from the rasterio collaborator: one step of the default
merge method of rasterio.merge.merge (method first, the copy_first
copier), which raster.py line 102 invokes with no method argument.  The
output pixel starts as nodata (none); a source writes its value there
only while the destination still holds nodata, so the first source with
valid data at a pixel wins. -/
def copyFirstStep (x y : Int) (dest : Option Int) (s : SrcRaster) : Option Int :=
  match dest with
  | some v => some v
  | none => if s.covers x y then some (s.val (x - s.ox) (y - s.oy)) else none

/-- The value of the merged mosaic at output pixel (x, y): the sources
are visited in the supplied order, each applying the copy_first rule. -/
def mergedPixel (srcs : List SrcRaster) (x y : Int) : Option Int :=
  srcs.foldl (copyFirstStep x y) none

/-- The rasterio meta dictionary of a dataset (the keys of src.meta):
driver, dtype, nodata, width, height, count, crs, transform. -/
structure Meta where
  driver : String
  dtype : String
  nodata : Option ℚ
  width : Nat
  height : Nat
  count : Nat
  crs : String
  transform : Affine
deriving DecidableEq, Repr

/-- The metadata written for the mosaic output: the meta keys plus the
extra keys added by the update call at raster.py lines 105-114. -/
structure OutMeta extends Meta where
  compress : Option String
  tiled : Bool
  blockxsize : Option Nat
  blockysize : Option Nat
deriving DecidableEq, Repr

/-- The attributes of the Raster object captured from the file opened at
construction time (raster.py lines 17-26) that merge_tiles reads back at
lines 110-113. -/
structure RasterAttrs where
  compression : Option String
  tiled : Bool
  blockxsize : Option Nat
  blockysize : Option Nat
deriving DecidableEq, Repr

/-- The out_meta computation of merge_tiles (raster.py lines 104-114):
copy the meta of the first opened input, then update driver to GTiff,
height/width/transform from the computed mosaic, and
compress/tiled/blockxsize/blockysize from the Raster object's own
attributes. -/
def mergeOutMeta (first : Meta) (selfAttrs : RasterAttrs)
    (mosaicHeight mosaicWidth : Nat) (outTrans : Affine) : OutMeta :=
  { toMeta :=
      { first with
          driver := "GTiff",
          height := mosaicHeight,
          width := mosaicWidth,
          transform := outTrans },
    compress := selfAttrs.compression,
    tiled := selfAttrs.tiled,
    blockxsize := selfAttrs.blockxsize,
    blockysize := selfAttrs.blockysize }

/-- Observable events of a merge_tiles run: opening an input handle,
closing it, writing the output file, and printing the caught-exception
message of the except branch. -/
inductive Ev where
  | openH (file : Nat)
  | closeH (file : Nat)
  | writeOut
  | printErr
deriving DecidableEq, Repr

/-- The environment of one merge_tiles invocation: the Raster object's
attributes, the glob result (file identifiers in glob order), whether
rasterio.open succeeds on each file, each file's meta, whether the
merge computation (which performs the reads) succeeds, the computed
mosaic shape and transform when it does, and whether the final write
succeeds. -/
structure MergeWorld where
  selfAttrs : RasterAttrs
  filepaths : List Nat
  openOk : Nat → Bool
  fileMeta : Nat → Meta
  mergeOk : Bool
  mosaicHeight : Nat
  mosaicWidth : Nat
  outTrans : Affine
  writeOk : Bool

/-- The open loop of merge_tiles (raster.py lines 98-100): files are
opened one by one and appended to src_files_to_mosaic; a failing open
raises, leaving exactly the previously appended handles in the list.
Returns the appended handles and whether the loop completed. -/
def openLoop (ok : Nat → Bool) : List Nat → List Nat × Bool
  | [] => ([], true)
  | fp :: rest =>
    if ok fp then
      let r := openLoop ok rest
      (fp :: r.1, r.2)
    else ([], false)

/-- The outcome of a merge_tiles run: the ordered event trace and the
output metadata that was assembled (when the run got that far). -/
structure MergeOutcome where
  events : List Ev
  outMeta : Option OutMeta
deriving DecidableEq, Repr

/-- The control flow of Raster.merge_tiles (raster.py lines 88-124): an
empty glob result returns immediately (line 92); otherwise the try block
opens every input, merges, assembles out_meta and writes the output;
any exception is caught and printed (line 120); the finally block closes
every handle in src_files_to_mosaic (lines 122-124).  The first opened
input, whose meta seeds out_meta, is the head of the glob list (headD's
default is never reached on the nonempty branch). -/
def merge_tiles (world : MergeWorld) : MergeOutcome :=
  if world.filepaths.isEmpty then { events := [], outMeta := none }
  else
    let opened := (openLoop world.openOk world.filepaths).1
    let mergedOk := (openLoop world.openOk world.filepaths).2 && world.mergeOk
    let meta := mergeOutMeta (world.fileMeta (world.filepaths.headD 0))
      world.selfAttrs world.mosaicHeight world.mosaicWidth world.outTrans
    let written := mergedOk && world.writeOk
    { events := opened.map Ev.openH
        ++ (if written then [Ev.writeOut] else [Ev.printErr])
        ++ opened.map Ev.closeH,
      outMeta := if mergedOk then some meta else none }

section TilingLemmas

/-- Membership below the ceiling of W/t is the same as the multiple being
below W. -/
lemma lt_ceilDiv_iff {W t : Nat} (ht : 0 < t) (k : Nat) :
    k < (W + t - 1) / t ↔ k * t < W := by
  rcases W with _ | W'
  · have h0 : (0 + t - 1) / t = 0 := Nat.div_eq_of_lt (by omega)
    rw [h0]
    omega
  · have harith : W' + 1 + t - 1 = W' + t := by omega
    have hdiv : (W' + 1 + t - 1) / t = W' / t + 1 := by
      rw [harith, Nat.add_div_right _ ht]
    rw [hdiv]
    constructor
    · intro h
      have hk : k ≤ W' / t := by omega
      have := (Nat.le_div_iff_mul_le ht).mp hk
      omega
    · intro h
      have hk : k * t ≤ W' := by omega
      have := (Nat.le_div_iff_mul_le ht).mpr hk
      omega

/-- Characterisation of natural division by its bracket. -/
lemma div_eq_of_bracket {x t k : Nat} (ht : 0 < t) (h1 : k * t ≤ x)
    (h2 : x < k * t + t) : x / t = k := by
  have ha : k ≤ x / t := (Nat.le_div_iff_mul_le ht).mpr h1
  have hb : x / t < k + 1 := by
    rw [Nat.div_lt_iff_lt_mul ht]
    have : k * t + t = (k + 1) * t := by ring
    omega
  omega

/-- The division bracket itself. -/
lemma div_bracket (x : Nat) {t : Nat} (ht : 0 < t) :
    (x / t) * t ≤ x ∧ x < (x / t) * t + t := by
  have h1 := Nat.div_mul_le_self x t
  have h2 := Nat.div_add_mod x t
  have h3 := Nat.mod_lt x ht
  have h4 : t * (x / t) = (x / t) * t := Nat.mul_comm t (x / t)
  omega

/-- Membership in tileWindows: exactly the windows at offsets (k*t, l*t)
with both offsets inside the raster. -/
lemma mem_tileWindows {W H t : Nat} (ht : 0 < t) (w : Window) :
    w ∈ tileWindows W H t ↔
      ∃ k l, k * t < W ∧ l * t < H ∧
        w = ⟨k * t, l * t, min t (W - k * t), min t (H - l * t)⟩ := by
  simp only [tileWindows, pyRangePos, List.mem_flatMap, List.mem_map,
    List.mem_range]
  constructor
  · rintro ⟨i, ⟨k, hk, rfl⟩, j, ⟨l, hl, rfl⟩, rfl⟩
    exact ⟨k, l, (lt_ceilDiv_iff ht k).mp hk, (lt_ceilDiv_iff ht l).mp hl, rfl⟩
  · rintro ⟨k, l, hk, hl, rfl⟩
    exact ⟨k * t, ⟨k, (lt_ceilDiv_iff ht k).mpr hk, rfl⟩,
      l * t, ⟨l, (lt_ceilDiv_iff ht l).mpr hl, rfl⟩, rfl⟩

end TilingLemmas

section OrderLemmas

/-- The strides enumerated by a positive-step Python range are strictly
increasing. -/
lemma pairwise_lt_pyRangePos (stop : Nat) {step : Nat} (hs : 0 < step) :
    (pyRangePos stop step).Pairwise (· < ·) := by
  unfold pyRangePos
  rw [List.pairwise_map]
  exact (List.pairwise_lt_range _).imp (fun h => (Nat.mul_lt_mul_right hs).mpr h)

/-- A doubly nested enumeration whose outer list fixes the column offset
and whose inner list fixes the row offset is strictly increasing for the
lexicographic window order, provided both lists are strictly
increasing. -/
lemma pairwise_winLex_grid (cols rows : List Nat) (mk : Nat → Nat → Window)
    (hcol : ∀ i j, (mk i j).colOff = i) (hrow : ∀ i j, (mk i j).rowOff = j)
    (hc : cols.Pairwise (· < ·)) (hr : rows.Pairwise (· < ·)) :
    (cols.flatMap (fun i => rows.map (mk i))).Pairwise winLex := by
  induction cols with
  | nil => simp
  | cons i cs ih =>
    rw [List.flatMap_cons, List.pairwise_append]
    obtain ⟨hlt, hcs⟩ := List.pairwise_cons.mp hc
    refine ⟨?_, ih hcs, ?_⟩
    · rw [List.pairwise_map]
      exact hr.imp (fun h => Or.inr ⟨by rw [hcol, hcol], by rw [hrow, hrow]; exact h⟩)
    · intro a ha b hb
      obtain ⟨j, hj, rfl⟩ := List.mem_map.mp ha
      obtain ⟨i', hi', hb'⟩ := List.mem_flatMap.mp hb
      obtain ⟨j', hj', rfl⟩ := List.mem_map.mp hb'
      exact Or.inl (by rw [hcol, hcol]; exact hlt i' hi')

end OrderLemmas

/-- Claim C4: for every width, height and tileSize > 0, the windows are
enumerated in column-major-outer order: strictly increasing column
offset, and strictly increasing row offset among windows that share a
column offset, so all windows of one starting column are emitted before
any window of the next. -/
theorem C4_enumeration_order (W H t : Nat) (ht : 0 < t) :
    (tileWindows W H t).Pairwise winLex := by
  unfold tileWindows
  exact pairwise_winLex_grid _ _ _ (fun i j => rfl) (fun i j => rfl)
    (pairwise_lt_pyRangePos W ht) (pairwise_lt_pyRangePos H ht)

/-- Witness for C4: the enumeration order property at width 5, height 5,
tile size 2. -/
theorem C4_enumeration_order_witness :
    0 < 2 ∧ (tileWindows 5 5 2).Pairwise winLex :=
  ⟨by decide, C4_enumeration_order 5 5 2 (by decide)⟩

/-- Claim C1: for every width > 0, height > 0 and tileSize > 0, the
windows enumerated by the tiling loop of generate_tiles exactly tile the
pixel rectangle: every pixel of the rectangle lies in exactly one window,
no window is empty or extends past the parent bounds, and a pixel lies in
some window exactly when it lies in the rectangle (so the union of the
windows is the full rectangle). -/
theorem C1_partition_exact (W H t : Nat) (hW : 0 < W) (hH : 0 < H) (ht : 0 < t) :
    (∀ x y, x < W → y < H → ∃! w, w ∈ tileWindows W H t ∧ w.contains x y) ∧
    (∀ w ∈ tileWindows W H t,
      0 < w.width ∧ 0 < w.height ∧ w.colOff + w.width ≤ W ∧ w.rowOff + w.height ≤ H) ∧
    (∀ x y, (∃ w ∈ tileWindows W H t, w.contains x y) ↔ (x < W ∧ y < H)) := by
  have hbounds : ∀ w ∈ tileWindows W H t,
      0 < w.width ∧ 0 < w.height ∧ w.colOff + w.width ≤ W ∧ w.rowOff + w.height ≤ H := by
    intro w hw
    obtain ⟨k, l, hk, hl, rfl⟩ := (mem_tileWindows ht w).mp hw
    show 0 < min t (W - k * t) ∧ 0 < min t (H - l * t) ∧
      k * t + min t (W - k * t) ≤ W ∧ l * t + min t (H - l * t) ≤ H
    omega
  have hcover : ∀ x y, x < W → y < H →
      (⟨x / t * t, y / t * t, min t (W - x / t * t), min t (H - y / t * t)⟩ : Window)
          ∈ tileWindows W H t ∧
        Window.contains
          ⟨x / t * t, y / t * t, min t (W - x / t * t), min t (H - y / t * t)⟩ x y := by
    intro x y hx hy
    have hbx := div_bracket x ht
    have hby := div_bracket y ht
    refine ⟨(mem_tileWindows ht _).mpr ⟨x / t, y / t, by omega, by omega, rfl⟩, ?_⟩
    show x / t * t ≤ x ∧ x < x / t * t + min t (W - x / t * t) ∧
      y / t * t ≤ y ∧ y < y / t * t + min t (H - y / t * t)
    omega
  have huniq : ∀ x y, x < W → y < H → ∀ w', w' ∈ tileWindows W H t → w'.contains x y →
      w' = ⟨x / t * t, y / t * t, min t (W - x / t * t), min t (H - y / t * t)⟩ := by
    intro x y hx hy w' hw' hc
    obtain ⟨k, l, hk, hl, rfl⟩ := (mem_tileWindows ht w').mp hw'
    have hcx : k * t ≤ x ∧ x < k * t + min t (W - k * t) ∧
        l * t ≤ y ∧ y < l * t + min t (H - l * t) := hc
    have hkx : x / t = k := div_eq_of_bracket ht (by omega) (by omega)
    have hly : y / t = l := div_eq_of_bracket ht (by omega) (by omega)
    rw [hkx, hly]
  refine ⟨?_, hbounds, ?_⟩
  · intro x y hx hy
    obtain ⟨hmem, hcont⟩ := hcover x y hx hy
    exact ⟨_, ⟨hmem, hcont⟩, fun w' hw' => huniq x y hx hy w' hw'.1 hw'.2⟩
  · intro x y
    constructor
    · rintro ⟨w, hw, hc⟩
      have hb := hbounds w hw
      have hc' : w.colOff ≤ x ∧ x < w.colOff + w.width ∧
          w.rowOff ≤ y ∧ y < w.rowOff + w.height := hc
      omega
    · rintro ⟨hx, hy⟩
      obtain ⟨hmem, hcont⟩ := hcover x y hx hy
      exact ⟨_, hmem, hcont⟩

/-- Witness for C1: the partition property instantiated at width 3,
height 3, tile size 2. -/
theorem C1_partition_exact_witness :
    0 < 3 ∧ 0 < 3 ∧ 0 < 2 ∧
      ((∀ x y, x < 3 → y < 3 → ∃! w, w ∈ tileWindows 3 3 2 ∧ w.contains x y) ∧
       (∀ w ∈ tileWindows 3 3 2,
         0 < w.width ∧ 0 < w.height ∧ w.colOff + w.width ≤ 3 ∧ w.rowOff + w.height ≤ 3) ∧
       (∀ x y, (∃ w ∈ tileWindows 3 3 2, w.contains x y) ↔ (x < 3 ∧ y < 3))) :=
  ⟨by decide, by decide, by decide,
    C1_partition_exact 3 3 2 (by decide) (by decide) (by decide)⟩

/-- Claim C2: for every window produced during tiling of a raster with
transform T, the derived tile transform (T composed with the pure
pixel-space translation to the window's offsets, as window_transform
computes it) maps tile pixel (0,0) to the same world coordinate that T
maps parent pixel (colOff, rowOff) to, and its scale/rotation
coefficients a, b, d, e are identical to T's. -/
theorem C2_tile_transform (T : Affine) (W H t : Nat) (ht : 0 < t) (w : Window)
    (hw : w ∈ tileWindows W H t) :
    (window_transform T w).apply 0 0 = T.apply w.colOff w.rowOff ∧
    (window_transform T w).a = T.a ∧ (window_transform T w).b = T.b ∧
    (window_transform T w).d = T.d ∧ (window_transform T w).e = T.e := by
  refine ⟨?_, ?_, ?_, ?_, ?_⟩ <;>
    simp [window_transform, Affine.mul, Affine.translation, Affine.apply]

/-- Witness for C2: a concrete transform and the first window of the
3 by 3 raster tiled at size 2. -/
theorem C2_tile_transform_witness :
    0 < 2 ∧ (⟨0, 0, 2, 2⟩ : Window) ∈ tileWindows 3 3 2 ∧
      ((window_transform ⟨2, 0, 100, 0, -2, 500⟩ ⟨0, 0, 2, 2⟩).apply 0 0 =
          Affine.apply ⟨2, 0, 100, 0, -2, 500⟩ (Window.colOff ⟨0, 0, 2, 2⟩)
            (Window.rowOff ⟨0, 0, 2, 2⟩) ∧
        (window_transform ⟨2, 0, 100, 0, -2, 500⟩ ⟨0, 0, 2, 2⟩).a = (2 : ℚ) ∧
        (window_transform ⟨2, 0, 100, 0, -2, 500⟩ ⟨0, 0, 2, 2⟩).b = (0 : ℚ) ∧
        (window_transform ⟨2, 0, 100, 0, -2, 500⟩ ⟨0, 0, 2, 2⟩).d = (0 : ℚ) ∧
        (window_transform ⟨2, 0, 100, 0, -2, 500⟩ ⟨0, 0, 2, 2⟩).e = (-2 : ℚ)) :=
  ⟨by decide, by decide,
    C2_tile_transform ⟨2, 0, 100, 0, -2, 500⟩ 3 3 2 (by decide) ⟨0, 0, 2, 2⟩ (by decide)⟩

/-- Claim C9, counterexample: tiling 2500 by 2500 at tile size 1024 does
not produce the claimed (width by height) size sequence; in
column-major-outer order the third window is 1024 wide and 452 tall, not
452 wide and 1024 tall. -/
theorem C9_counterexample :
    ¬ ((tileWindows 2500 2500 1024).map (fun w => (w.width, w.height)) =
      [(1024, 1024), (1024, 1024), (452, 1024),
       (1024, 1024), (1024, 1024), (452, 1024),
       (1024, 452), (1024, 452), (452, 452)]) := by decide

/-- Claim C9, amended: tiling 2500 by 2500 at tile size 1024 yields
exactly nine windows whose (width by height) sizes in enumeration order
are 1024x1024, 1024x1024, 1024x452, 1024x1024, 1024x1024, 1024x452,
452x1024, 452x1024, 452x452 — the claimed sequence with each pair read
as height by width. -/
theorem C9_edge_tile_sizes :
    (tileWindows 2500 2500 1024).map (fun w => (w.width, w.height)) =
      [(1024, 1024), (1024, 1024), (1024, 452),
       (1024, 1024), (1024, 1024), (1024, 452),
       (452, 1024), (452, 1024), (452, 452)] := by decide

/-- Claim C5, counterexample: a negative tile size does not fail at all;
the Python ranges of the tiling loop are simply empty, so generate_tiles
returns without error and produces no window. -/
theorem C5_counterexample : generateTiles 10 10 (-1) = .ok [] := rfl

/-- Claim C5, amended: tile size 0 raises a generic ValueError (from
range, there is no dedicated InvalidTileSize error) before any window is
produced; a negative tile size silently produces no windows and no
error; for every positive tile size no window has zero area, and a
window's width (resp. height) equals dimension - offset exactly when
that remainder is smaller than the tile size. -/
theorem C5_tile_size_policy (W H : Nat) (t : Int) :
    (t = 0 → generateTiles W H t = .error .valueError) ∧
    (t < 0 → generateTiles W H t = .ok []) ∧
    (0 < t → generateTiles W H t = .ok (tileWindows W H t.toNat) ∧
      ∀ w ∈ tileWindows W H t.toNat,
        0 < w.width ∧ 0 < w.height ∧
        (W - w.colOff < t.toNat → w.width = W - w.colOff) ∧
        (H - w.rowOff < t.toNat → w.height = H - w.rowOff)) := by
  refine ⟨?_, ?_, ?_⟩
  · rintro rfl
    rfl
  · intro h
    have h1 : t ≠ 0 := by omega
    have h2 : ¬ 0 < t := by omega
    simp only [generateTiles, pyRange, h1, h2, if_false, ite_false, if_neg]
    rfl
  · intro h
    have h1 : t ≠ 0 := by omega
    have ht' : 0 < t.toNat := by omega
    constructor
    · simp only [generateTiles, pyRange, h1, h, if_false, ite_false, if_neg, if_pos,
        ite_true, tileWindows]
      rfl
    · intro w hw
      obtain ⟨k, l, hk, hl, rfl⟩ := (mem_tileWindows ht' w).mp hw
      show 0 < min t.toNat (W - k * t.toNat) ∧ 0 < min t.toNat (H - l * t.toNat) ∧
        (W - k * t.toNat < t.toNat →
          min t.toNat (W - k * t.toNat) = W - k * t.toNat) ∧
        (H - l * t.toNat < t.toNat →
          min t.toNat (H - l * t.toNat) = H - l * t.toNat)
      omega

/-- Witness for C5: the three branches of the amended tile-size policy at
a 10 by 10 raster with tile sizes 0, -1 and 3. -/
theorem C5_tile_size_policy_witness :
    generateTiles 10 10 0 = .error .valueError ∧
    generateTiles 10 10 (-1) = .ok [] ∧
    (generateTiles 10 10 3 = .ok (tileWindows 10 10 3) ∧
      ∀ w ∈ tileWindows 10 10 3,
        0 < w.width ∧ 0 < w.height ∧
        (10 - w.colOff < 3 → w.width = 10 - w.colOff) ∧
        (10 - w.rowOff < 3 → w.height = 10 - w.rowOff)) :=
  ⟨(C5_tile_size_policy 10 10 0).1 rfl,
    (C5_tile_size_policy 10 10 (-1)).2.1 (by decide),
    (C5_tile_size_policy 10 10 3).2.2 (by decide)⟩

/-- Claim C8: the tile file name does not match the claimed pattern.
Because Raster._ext is ".tif" (dot included) and the format string
appends a dot before it, the produced name carries a double dot:
tile_x00000_y00000..tif instead of the claimed tile_x00000_y00000.tif.
The offsets are still zero-padded to five digits as claimed. -/
theorem C8_tile_name_eval :
    tileName 0 0 = "tile_x00000_y00000..tif" ∧
    tileName 0 0 ≠ "tile_x00000_y00000.tif" ∧
    tileName 12 345 = "tile_x00012_y00345..tif" := by
  refine ⟨rfl, by decide, rfl⟩

/-- A first overlap source for the merge counterexample: footprint
columns 0 and 1 of row 0, all pixel values 1. -/
def srcA : SrcRaster := { ox := 0, oy := 0, w := 2, h := 1, val := fun _ _ => 1 }

/-- A second overlap source for the merge counterexample: footprint
columns 1 and 2 of row 0, all pixel values 2. -/
def srcB : SrcRaster := { ox := 1, oy := 0, w := 2, h := 1, val := fun _ _ => 2 }

/-- Claim C3, counterexample: merging A then B, where both cover output
pixel (1,0) with distinct values, yields A's value 1 there, not B's
value 2: rasterio.merge.merge's default method keeps the first input's
data at overlapping pixels, so the claimed last-write-wins rule fails. -/
theorem C3_counterexample :
    srcA.covers 1 0 = true ∧ srcB.covers 1 0 = true ∧
    srcA.val 1 0 = 1 ∧ srcB.val 0 0 = 2 ∧
    mergedPixel [srcA, srcB] 1 0 = some 1 ∧
    mergedPixel [srcA, srcB] 1 0 ≠ some 2 :=
  ⟨rfl, rfl, rfl, rfl, rfl, by decide⟩

/-- Claim C3, amended: overlapping pixels resolve to the value of the
EARLIEST input in the supplied order (first-write-wins, the default
method of rasterio.merge.merge): for two sources A then B, a pixel
covered by A holds A's value, a pixel covered only by B holds B's value,
and a pixel covered by neither stays nodata. -/
theorem C3_first_write_wins (A B : SrcRaster) (x y : Int) :
    (A.covers x y = true →
      mergedPixel [A, B] x y = some (A.val (x - A.ox) (y - A.oy))) ∧
    (A.covers x y = false → B.covers x y = true →
      mergedPixel [A, B] x y = some (B.val (x - B.ox) (y - B.oy))) ∧
    (A.covers x y = false → B.covers x y = false →
      mergedPixel [A, B] x y = none) := by
  refine ⟨fun hA => ?_, fun hA hB => ?_, fun hA hB => ?_⟩ <;>
    simp [mergedPixel, copyFirstStep, hA, *]

/-- Witness for C3: the amended overlap rule evaluated on the two
concrete overlapping sources. -/
theorem C3_first_write_wins_witness :
    mergedPixel [srcA, srcB] 1 0 = some (srcA.val (1 - srcA.ox) (0 - srcA.oy)) ∧
    mergedPixel [srcB, srcA] 3 0 = none :=
  ⟨(C3_first_write_wins srcA srcB 1 0).1 rfl,
    (C3_first_write_wins srcB srcA 3 0).2.2 rfl rfl⟩

/-- Claim C6: every input handle that merge_tiles opened is closed
before the operation returns, on the success path and on every failure
path alike: the finally block closes exactly the handles appended to
src_files_to_mosaic, which are exactly the handles whose open
succeeded. -/
theorem C6_opened_handles_closed (world : MergeWorld) (fileId : Nat)
    (h : Ev.openH fileId ∈ (merge_tiles world).events) :
    Ev.closeH fileId ∈ (merge_tiles world).events := by
  cases hfp : world.filepaths with
  | nil =>
    unfold merge_tiles at h
    rw [hfp] at h
    simp at h
  | cons f0 rest =>
    unfold merge_tiles at h ⊢
    rw [hfp] at h ⊢
    simp only [List.isEmpty_cons, if_false, ite_false, Bool.false_eq_true,
      List.mem_append, List.mem_map] at h ⊢
    have hopen : fileId ∈ (openLoop world.openOk (f0 :: rest)).1 := by
      rcases h with (⟨a, ha, hEq⟩ | h) | ⟨a, ha, hEq⟩
      · obtain rfl : a = fileId := by injection hEq
        exact ha
      · exfalso
        revert h
        split <;> simp
      · exact absurd hEq (by simp)
    exact Or.inr ⟨fileId, hopen, rfl⟩

/-- Witness for C6: three inputs where the second open fails; the first
handle was opened and is closed again even though the merge never ran. -/
theorem C6_opened_handles_closed_witness :
    Ev.openH 1 ∈ (merge_tiles
      { selfAttrs := { compression := none, tiled := false,
                       blockxsize := none, blockysize := none },
        filepaths := [1, 2, 3],
        openOk := fun fileId => fileId != 2,
        fileMeta := fun _ => { driver := "GTiff", dtype := "uint8", nodata := none,
                               width := 1, height := 1, count := 1, crs := "EPSG:4326",
                               transform := ⟨1, 0, 0, 0, -1, 0⟩ },
        mergeOk := true, mosaicHeight := 1, mosaicWidth := 1,
        outTrans := ⟨1, 0, 0, 0, -1, 0⟩, writeOk := true }).events ∧
    Ev.closeH 1 ∈ (merge_tiles
      { selfAttrs := { compression := none, tiled := false,
                       blockxsize := none, blockysize := none },
        filepaths := [1, 2, 3],
        openOk := fun fileId => fileId != 2,
        fileMeta := fun _ => { driver := "GTiff", dtype := "uint8", nodata := none,
                               width := 1, height := 1, count := 1, crs := "EPSG:4326",
                               transform := ⟨1, 0, 0, 0, -1, 0⟩ },
        mergeOk := true, mosaicHeight := 1, mosaicWidth := 1,
        outTrans := ⟨1, 0, 0, 0, -1, 0⟩, writeOk := true }).events :=
  ⟨by decide, C6_opened_handles_closed _ 1 (by decide)⟩

/-- Claim C7: when the glob over the input folder yields no file,
merge_tiles returns immediately: no handle is opened, no output is
written, no error is raised or printed — a silent successful no-op. -/
theorem C7_empty_input_noop (world : MergeWorld) (h : world.filepaths = []) :
    merge_tiles world = { events := [], outMeta := none } := by
  simp [merge_tiles, h]

/-- Witness for C7: the no-op outcome on a concrete world with an empty
glob result. -/
theorem C7_empty_input_noop_witness :
    merge_tiles
      { selfAttrs := { compression := none, tiled := false,
                       blockxsize := none, blockysize := none },
        filepaths := [],
        openOk := fun _ => true,
        fileMeta := fun _ => { driver := "GTiff", dtype := "uint8", nodata := none,
                               width := 1, height := 1, count := 1, crs := "EPSG:4326",
                               transform := ⟨1, 0, 0, 0, -1, 0⟩ },
        mergeOk := true, mosaicHeight := 1, mosaicWidth := 1,
        outTrans := ⟨1, 0, 0, 0, -1, 0⟩, writeOk := true } =
      { events := [], outMeta := none } :=
  C7_empty_input_noop _ rfl

/-- Claim C10: on every merge run that writes its output, the output
metadata copies the meta of the first opened input only, forces the
driver to GTiff, takes compress, tiled, blockxsize and blockysize from
the Raster object opened at construction time, and takes only height,
width and transform from the computed mosaic. -/
theorem C10_output_metadata (world : MergeWorld) (f0 : Nat) (rest : List Nat)
    (hfp : world.filepaths = f0 :: rest)
    (hok : Ev.writeOut ∈ (merge_tiles world).events) :
    (merge_tiles world).outMeta = some
      { driver := "GTiff",
        dtype := (world.fileMeta f0).dtype,
        nodata := (world.fileMeta f0).nodata,
        count := (world.fileMeta f0).count,
        crs := (world.fileMeta f0).crs,
        height := world.mosaicHeight,
        width := world.mosaicWidth,
        transform := world.outTrans,
        compress := world.selfAttrs.compression,
        tiled := world.selfAttrs.tiled,
        blockxsize := world.selfAttrs.blockxsize,
        blockysize := world.selfAttrs.blockysize } := by
  unfold merge_tiles at hok ⊢
  rw [hfp] at hok ⊢
  simp only [List.isEmpty_cons, if_false, ite_false, Bool.false_eq_true,
    List.mem_append, List.mem_map] at hok ⊢
  cases hc : ((openLoop world.openOk (f0 :: rest)).2 && world.mergeOk) with
  | false =>
    exfalso
    rcases Bool.and_eq_false_iff.mp hc with h1 | h1 <;> simp [h1] at hok
  | true =>
    simp [mergeOutMeta, List.headD]

/-- Witness for C10: a successful two-input merge run and its output
metadata. -/
theorem C10_output_metadata_witness :
    (merge_tiles
      { selfAttrs := { compression := some "JPEG", tiled := true,
                       blockxsize := some 256, blockysize := some 256 },
        filepaths := [1, 2],
        openOk := fun _ => true,
        fileMeta := fun _ => { driver := "X", dtype := "uint8", nodata := none,
                               width := 4, height := 4, count := 3, crs := "EPSG:4326",
                               transform := ⟨1, 0, 0, 0, -1, 0⟩ },
        mergeOk := true, mosaicHeight := 8, mosaicWidth := 8,
        outTrans := ⟨1, 0, 7, 0, -1, 9⟩, writeOk := true }).outMeta = some
      { driver := "GTiff", dtype := "uint8", nodata := none,
        count := 3, crs := "EPSG:4326",
        height := 8, width := 8, transform := ⟨1, 0, 7, 0, -1, 9⟩,
        compress := some "JPEG", tiled := true,
        blockxsize := some 256, blockysize := some 256 } :=
  C10_output_metadata _ 1 [2] rfl (by decide)

end RasterHandler
